import Mathlib

/-!
# Battery monitor: verification of the telemetry pipeline

Shallow embedding of the two scripts of the repository:

* `publisher_voltage_and_current_sensor.py` — the per-cycle sensor health
  state machine of the `__main__` loop, the SoC estimator `estimate_soc`,
  and the wire-message formatting.
* `subscriber_voltage_and_current_sensor.py` — the consumer's message
  parser (`re.search` pattern of `handle_new_message`), exponential
  smoothing, rolling-window truncation and `update_time_left`.

Python floats are embedded as exact rationals (`ℚ`); decimal literals map
to the exact decimal value.  I/O effects (register reads, publication,
sleeps) are embedded as explicit per-cycle inputs/outputs: the reads of a
cycle arrive as `CycleInput` fields, a reset+configure pair performed by
the cycle is reported as the Boolean `CycleOutput.reinit`, and the string
passed to `socket.send_string` is `CycleOutput.publish`.
-/

/-! ## Constants of the publisher (lines 17–21 of the source) -/

def TOLERANCE : ℚ := 0.001

def STABLE_THRESHOLD : Nat := 3

def FAILURE_THRESHOLD : Nat := 3

def VALID_READ_COUNT_FOR_RECONNECT : Nat := 2

/-! ## Python-style numeric primitives

`pyInt` is Python's `int()` (truncation toward zero), `pyMod` is Python's
float `%` (result has the sign of the divisor). -/

def pyInt (q : ℚ) : ℤ := if q < 0 then ⌈q⌉ else ⌊q⌋

def pyMod (x y : ℚ) : ℚ := x - y * (⌊x / y⌋ : ℚ)

/-- Round to the nearest integer, ties to the even integer: the rounding
Python's fixed-point float formatting performs on the scaled value. -/
def roundHalfEven (q : ℚ) : ℤ :=
  let f := ⌊q⌋
  let r := q - (f : ℚ)
  if r < 1/2 then f
  else if 1/2 < r then f + 1
  else if f % 2 = 0 then f else f + 1

def padLeftZeros (s : String) (d : Nat) : String :=
  String.mk (List.replicate (d - s.length) '0') ++ s

/-- Python's `f"{q:.df}"` on an exact rational: scale by `10^d`, round
half-to-even, render with the sign taken from `q` (so a negative value
rounding to zero keeps its minus sign, as Python does). -/
def fmtFixed (q : ℚ) (d : Nat) : String :=
  let scaled := roundHalfEven (q * (10 : ℚ) ^ d)
  let sign := if q < 0 then "-" else ""
  let n := scaled.natAbs
  sign ++ toString (n / 10 ^ d) ++ "." ++ padLeftZeros (toString (n % 10 ^ d)) d

/-- Line 175 of the publisher: `f"{current:.6f} A" if current is not None
else "N/A"`. -/
def fmtCurrent : Option ℚ → String
  | none => "N/A"
  | some c => fmtFixed c 6 ++ " A"

/-- Line 198 of the publisher:
`f"Voltage: {voltage_str}, Current: {current_str}, SoC: {soc_str}"`. -/
def mkPublishStr (voltage_str current_str soc_str : String) : String :=
  "Voltage: " ++ voltage_str ++ ", Current: " ++ current_str ++ ", SoC: " ++ soc_str

/-- The wire message of an invalid-reading cycle (lines 164–166). -/
def disconnectedMsg : String :=
  "Voltage: Battery Disconnected, Current: N/A, SoC: N/A"

/-! ## `estimate_soc` (publisher lines 90–107) -/

def estimate_soc (voltage : Option ℚ) : ℚ :=
  match voltage with
  | none => 0
  | some v =>
    if v ≤ 14.8 then 0
    else if 16.85 ≤ v then 100
    else (v - 14.8) / (16.85 - 14.8) * 100

/-! ## The publisher's per-cycle state machine (lines 137–203)

The mutable locals of the `__main__` loop form `MonitorState`; the values
produced by the cycle's reads (`safe_read_voltage` / `safe_read_current`,
the `is_sensor_present()` probe, and the one re-issued read pair of the
stale-lock branch) are the oracle fields of `CycleInput`, consumed only
where the Python calls them. -/

structure MonitorState where
  sensor_connected : Bool
  consecutive_failures : Nat
  valid_read_count : Nat
  last_voltage : Option ℚ
  stable_count : Nat
deriving DecidableEq

structure CycleInput where
  voltage : Option ℚ
  current : Option ℚ
  present : Bool
  revoltage : Option ℚ
  recurrent : Option ℚ
deriving DecidableEq

structure CycleOutput where
  reinit : Bool
  publish : String
deriving DecidableEq

/-- Initial values of the loop locals (publisher lines 137–141). -/
def initialMonitorState : MonitorState :=
  { sensor_connected := false, consecutive_failures := 0, valid_read_count := 0,
    last_voltage := none, stable_count := 0 }

/-- Lines 192–194: `if not sensor_connected and valid_read_count >=
VALID_READ_COUNT_FOR_RECONNECT: sensor_connected = True`. -/
def reconnectUpdate (connected : Bool) (vrc : Nat) : Bool :=
  if connected = false ∧ VALID_READ_COUNT_FOR_RECONNECT ≤ vrc then true else connected

/-- Invalid-reading branch (publisher lines 148–166). -/
def stepInvalid (st : MonitorState) (i : CycleInput) : MonitorState × CycleOutput :=
  let cf := st.consecutive_failures + 1
  if FAILURE_THRESHOLD ≤ cf ∧ i.present = true then
    ({ sensor_connected := false, consecutive_failures := 0, valid_read_count := 0,
       last_voltage := st.last_voltage, stable_count := 0 },
     { reinit := true, publish := mkPublishStr "Battery Disconnected" "N/A" "N/A" })
  else
    ({ sensor_connected := false, consecutive_failures := cf, valid_read_count := 0,
       last_voltage := st.last_voltage, stable_count := 0 },
     { reinit := false, publish := mkPublishStr "Battery Disconnected" "N/A" "N/A" })

/-- Valid-reading branch (publisher lines 168–196): the wire strings are
formatted from the cycle's original reading (lines 174–176) **before**
the stale-lock re-sample of lines 183–190; only `last_voltage` receives
the re-sampled value. -/
def stepValid (st : MonitorState) (i : CycleInput) (v : ℚ) : MonitorState × CycleOutput :=
  let vrc := st.valid_read_count + 1
  let soc_percentage := estimate_soc (some v)
  let voltage_str := fmtFixed v 3 ++ " V"
  let current_str := fmtCurrent i.current
  let soc_str := fmtFixed soc_percentage 1 ++ "%"
  let sc :=
    match st.last_voltage with
    | some lv => if |v - lv| < TOLERANCE then st.stable_count + 1 else 0
    | none => 0
  if STABLE_THRESHOLD ≤ sc then
    ({ sensor_connected := reconnectUpdate st.sensor_connected vrc,
       consecutive_failures := 0, valid_read_count := vrc,
       last_voltage := i.revoltage, stable_count := 0 },
     { reinit := true, publish := mkPublishStr voltage_str current_str soc_str })
  else
    ({ sensor_connected := reconnectUpdate st.sensor_connected vrc,
       consecutive_failures := 0, valid_read_count := vrc,
       last_voltage := some v, stable_count := sc },
     { reinit := false, publish := mkPublishStr voltage_str current_str soc_str })

/-- One iteration of the `while True` loop: line 148's
`if (voltage is None or voltage < 0.1)` selects the branch. -/
def stepCycle (st : MonitorState) (i : CycleInput) : MonitorState × CycleOutput :=
  match i.voltage with
  | none => stepInvalid st i
  | some v => if v < 1/10 then stepInvalid st i else stepValid st i v

/-- A reading counts as valid iff it is present and at least `0.1 V`
(negation of line 148's condition). -/
def validReading : Option ℚ → Bool
  | none => false
  | some v => !(decide (v < (1 : ℚ)/10))

def runMonitor : MonitorState → List CycleInput → MonitorState × List CycleOutput
  | st, [] => (st, [])
  | st, i :: rest =>
    let r := stepCycle st i
    let rr := runMonitor r.1 rest
    (rr.1, r.2 :: rr.2)

/-! ## The consumer (subscriber script)

`handle_new_message` applies `re.search` with the pattern
`Voltage:\s*([\d.]+)\s*V,\s*Current:\s*([\d.]+)\s*A,\s*SoC:\s*([\d.]+)%`.
In this pattern every greedy piece (`\s*`, `[\d.]+`) is followed by a
literal drawn from a disjoint character set, so the backtracking regex
engine never has to give characters back: matching at a fixed start
position is exactly maximal-munch, and `re.search` tries start positions
left to right.  `matchVoltagePattern` is that maximal-munch matcher at
one position and `searchVoltagePattern` the left-to-right scan. -/

def isWs (c : Char) : Bool := c = ' ' || c = '\t' || c = '\n' || c = '\r'

def isNumChar (c : Char) : Bool := c.isDigit || c = '.'

def dropWs (cs : List Char) : List Char := cs.dropWhile isWs

def matchLit : List Char → List Char → Option (List Char)
  | [], cs => some cs
  | _ :: _, [] => none
  | l :: ls, c :: cs => if c = l then matchLit ls cs else none

def matchVoltagePattern (cs : List Char) : Option (String × String × String) :=
  match matchLit "Voltage:".data cs with
  | none => none
  | some cs1 =>
    let cs2 := dropWs cs1
    let g1 := cs2.takeWhile isNumChar
    let cs3 := cs2.dropWhile isNumChar
    if g1.isEmpty then none else
    match matchLit "V,".data (dropWs cs3) with
    | none => none
    | some cs4 =>
      match matchLit "Current:".data (dropWs cs4) with
      | none => none
      | some cs5 =>
        let cs6 := dropWs cs5
        let g2 := cs6.takeWhile isNumChar
        let cs7 := cs6.dropWhile isNumChar
        if g2.isEmpty then none else
        match matchLit "A,".data (dropWs cs7) with
        | none => none
        | some cs8 =>
          match matchLit "SoC:".data (dropWs cs8) with
          | none => none
          | some cs9 =>
            let cs10 := dropWs cs9
            let g3 := cs10.takeWhile isNumChar
            let cs11 := cs10.dropWhile isNumChar
            if g3.isEmpty then none else
            match matchLit "%".data cs11 with
            | none => none
            | some _ => some (String.mk g1, String.mk g2, String.mk g3)

def searchVoltagePattern : List Char → Option (String × String × String)
  | [] => matchVoltagePattern []
  | c :: cs =>
    match matchVoltagePattern (c :: cs) with
    | some r => some r
    | none => searchVoltagePattern cs

/-! Python's `float()` restricted to the strings the groups can produce
(`[\d.]+`): it succeeds iff the string has at least one digit and at most
one dot, yielding the decimal value. -/

def digitsToNat (cs : List Char) : Nat :=
  cs.foldl (fun n c => 10 * n + (c.toNat - 48)) 0

def ratOfNumChars (cs : List Char) : ℚ :=
  let ip := cs.takeWhile (fun c => !(c = '.'))
  let fp := (cs.dropWhile (fun c => !(c = '.'))).drop 1
  (digitsToNat ip : ℚ) + (digitsToNat fp : ℚ) / (10 : ℚ) ^ fp.length

def parseNumStr (s : String) : Option ℚ :=
  let cs := s.data
  if cs.any Char.isDigit ∧ cs.countP (fun c => c = '.') ≤ 1 ∧ cs.all isNumChar then
    some (ratOfNumChars cs)
  else none

/-! ## Smoothing, rolling window, and the time-left projection -/

/-- `alpha = 0.2`, the smoothing factor (subscriber line 135). -/
def alpha : ℚ := 0.2

/-- One exponential-smoothing update for an already-seeded filter
(subscriber line 139). -/
def ewmaStep (filtered_soc_prev soc : ℚ) : ℚ :=
  alpha * soc + (1 - alpha) * filtered_soc_prev

/-- Subscriber lines 136–139: the first sample seeds the filter directly,
later samples are smoothed. -/
def smoothNext (filtered : Option ℚ) (soc_val : ℚ) : ℚ :=
  match filtered with
  | none => soc_val
  | some f => ewmaStep f soc_val

/-- `n`-fold application of the smoothing update to a constant input
`x`, starting from seed `f0`. -/
def ewmaIter (x f0 : ℚ) : Nat → ℚ
  | 0 => f0
  | n + 1 => smoothNext (some (ewmaIter x f0 n)) x

/-- `max_points = 300` (subscriber line 86). -/
def max_points : Nat := 300

/-- `self.battery_capacity = 10.0` Ah (subscriber line 104). -/
def battery_capacity : ℚ := 10

/-- Python's `l[-n:]` for `n > 0`: the last `n` elements. -/
def lastN {α : Type} (n : Nat) (l : List α) : List α := l.drop (l.length - n)

/-- The internal `hours_left` of `update_time_left` (subscriber line 163). -/
def hours_left_calc (capacity soc_percent current_amp : ℚ) : ℚ :=
  capacity * (soc_percent / 100) / current_amp

/-- `MainWindow.update_time_left` (subscriber lines 154–172), returning the
text set on the label.  `int()` is `pyInt`, the float `%` is `pyMod`, and
the integer `//` and `%` of lines 170–171 are floor division / modulus. -/
def update_time_left (capacity soc_percent current_amp : ℚ) : String :=
  if current_amp < 1/100 ∨ soc_percent < 1 then "Time Left: N/A"
  else
    let hours_left := hours_left_calc capacity soc_percent current_amp
    let total_minutes : ℤ := pyInt (hours_left * 60)
    let seconds : ℤ := pyInt (pyMod (hours_left * 3600) 60)
    if total_minutes < 60 then
      "Time Left: " ++ toString total_minutes ++ " min " ++ toString seconds ++ " s"
    else
      let hrs := Int.fdiv total_minutes 60
      let mins := Int.emod total_minutes 60
      "Time Left: " ++ toString hrs ++ " h " ++ toString mins ++ " min " ++
        toString seconds ++ " s"

/-- The fields of `MainWindow` that `handle_new_message` touches. -/
structure ConsumerState where
  time_data : List ℚ
  voltage_data : List ℚ
  current_data : List ℚ
  soc_data : List ℚ
  filtered_soc : Option ℚ
  time_left_text : String
deriving DecidableEq

/-- `MainWindow.handle_new_message` (subscriber lines 111–152).  `elapsed`
stands for `time.time() - self.start_time`.  A non-matching message, or a
group `float()` rejects, leaves the state untouched (the early returns of
lines 121 and 127). -/
def handle_new_message (st : ConsumerState) (elapsed : ℚ) (msg : String) : ConsumerState :=
  match searchVoltagePattern msg.data with
  | none => st
  | some (g1, g2, g3) =>
    match parseNumStr g1, parseNumStr g2, parseNumStr g3 with
    | some voltage_val, some current_val, some soc_val =>
      let time_data := st.time_data ++ [elapsed]
      let voltage_data := st.voltage_data ++ [voltage_val]
      let current_data := st.current_data ++ [current_val]
      let filtered := smoothNext st.filtered_soc soc_val
      let soc_data := st.soc_data ++ [filtered]
      if max_points < time_data.length then
        { time_data := lastN max_points time_data,
          voltage_data := lastN max_points voltage_data,
          current_data := lastN max_points current_data,
          soc_data := lastN max_points soc_data,
          filtered_soc := some filtered,
          time_left_text := update_time_left battery_capacity filtered current_val }
      else
        { time_data := time_data, voltage_data := voltage_data,
          current_data := current_data, soc_data := soc_data,
          filtered_soc := some filtered,
          time_left_text := update_time_left battery_capacity filtered current_val }
    | _, _, _ => st

/-! ## Helper lemmas: the SoC estimator -/

lemma soc_low {v : ℚ} (h : v ≤ 14.8) : estimate_soc (some v) = 0 := by
  simp only [estimate_soc, if_pos h]

lemma soc_high {v : ℚ} (h : 16.85 ≤ v) : estimate_soc (some v) = 100 := by
  simp only [estimate_soc]
  rw [if_neg (by push_neg; linarith), if_pos h]

lemma soc_mid {v : ℚ} (h1 : 14.8 < v) (h2 : v < 16.85) :
    estimate_soc (some v) = (v - 14.8) / (16.85 - 14.8) * 100 := by
  simp only [estimate_soc]
  rw [if_neg (not_le.mpr h1), if_neg (not_le.mpr h2)]

lemma soc_linear_nonneg (v : ℚ) (h : 14.8 ≤ v) : 0 ≤ (v - 14.8) / (16.85 - 14.8) * 100 :=
  mul_nonneg (div_nonneg (by linarith) (by norm_num)) (by norm_num)

lemma soc_linear_le (v : ℚ) (h : v ≤ 16.85) : (v - 14.8) / (16.85 - 14.8) * 100 ≤ 100 := by
  rw [div_mul_eq_mul_div, div_le_iff₀ (by norm_num : (0:ℚ) < 16.85 - 14.8)]
  linarith

lemma soc_linear_mono {v w : ℚ} (h : v ≤ w) :
    (v - 14.8) / (16.85 - 14.8) * 100 ≤ (w - 14.8) / (16.85 - 14.8) * 100 := by
  rw [div_mul_eq_mul_div, div_mul_eq_mul_div,
    div_le_div_iff_of_pos_right (by norm_num : (0:ℚ) < 16.85 - 14.8)]
  linarith

lemma estimate_soc_range (ov : Option ℚ) : 0 ≤ estimate_soc ov ∧ estimate_soc ov ≤ 100 := by
  match ov with
  | none => norm_num [estimate_soc]
  | some v =>
    simp only [estimate_soc]
    split_ifs with h1 h2
    · norm_num
    · norm_num
    · exact ⟨soc_linear_nonneg v (le_of_lt (not_le.mp h1)),
        soc_linear_le v (le_of_lt (not_le.mp h2))⟩

lemma estimate_soc_mono {v w : ℚ} (hvw : v ≤ w) :
    estimate_soc (some v) ≤ estimate_soc (some w) := by
  rcases le_or_lt v 14.8 with h1 | h1
  · rw [soc_low h1]
    exact (estimate_soc_range (some w)).1
  · rcases le_or_lt 16.85 v with h2 | h2
    · rw [soc_high h2, soc_high (le_trans h2 hvw)]
    · rw [soc_mid h1 h2]
      rcases le_or_lt 16.85 w with h3 | h3
      · rw [soc_high h3]
        exact soc_linear_le v (le_of_lt h2)
      · rw [soc_mid (lt_of_lt_of_le h1 hvw) h3]
        exact soc_linear_mono hvw

/-! ## Helper lemma: concrete evaluation of the time-left projection -/

lemma update_time_left_at_half_amp :
    update_time_left battery_capacity 50 (1/2) = "Time Left: 10 h 0 min 0 s" := by
  rw [update_time_left, if_neg (by norm_num)]
  norm_num [hours_left_calc, battery_capacity, pyInt, pyMod]
  decide

/-! ## Claim theorems -/

/-- **C6.** `estimate_soc` maps `None` to 0, clamps at the calibration
bounds `14.8 V` (→ 0) and `16.85 V` (→ 100), maps `15.825 V` to exactly
50, is the stated linear interpolation strictly between the bounds, is
monotone non-decreasing in the voltage, and always lands in `[0, 100]`. -/
theorem C6_estimate_soc_spec :
    estimate_soc none = 0 ∧
    (∀ v : ℚ, v ≤ 14.8 → estimate_soc (some v) = 0) ∧
    (∀ v : ℚ, 16.85 ≤ v → estimate_soc (some v) = 100) ∧
    estimate_soc (some 15.825) = 50 ∧
    (∀ v : ℚ, 14.8 < v → v < 16.85 →
      estimate_soc (some v) = (v - 14.8) / (16.85 - 14.8) * 100) ∧
    (∀ v w : ℚ, v ≤ w → estimate_soc (some v) ≤ estimate_soc (some w)) ∧
    (∀ ov : Option ℚ, 0 ≤ estimate_soc ov ∧ estimate_soc ov ≤ 100) :=
  ⟨rfl, fun _ h => soc_low h, fun _ h => soc_high h, by norm_num [estimate_soc],
    fun _ h1 h2 => soc_mid h1 h2, fun _ _ h => estimate_soc_mono h,
    estimate_soc_range⟩

/-- Witness for C6: the low-clamp clause applied at 14 V. -/
theorem C6_witness : (14 : ℚ) ≤ 14.8 ∧ estimate_soc (some 14) = 0 :=
  ⟨by norm_num, C6_estimate_soc_spec.2.1 14 (by norm_num)⟩

/-- **C2 (amended).** `update_time_left 10 50 0.005` is "not available"
(0.005 < 0.01); but for capacity 10 Ah, SoC 50 %, current 0.5 A the
code computes `hours_left = 10.0` — not 1.0 — and displays
"Time Left: 10 h 0 min 0 s". -/
theorem C2_time_left_amended :
    update_time_left battery_capacity 50 (5/1000) = "Time Left: N/A" ∧
    hours_left_calc battery_capacity 50 (1/2) = 10 ∧
    update_time_left battery_capacity 50 (1/2) = "Time Left: 10 h 0 min 0 s" := by
  refine ⟨?_, by norm_num [hours_left_calc, battery_capacity], update_time_left_at_half_amp⟩
  rw [update_time_left, if_pos (by norm_num)]

/-- **C2 counterexample.** At current 0.5 A, SoC 50 %, capacity 10 Ah,
`hours_left` is not 1.0 and the label is neither "60 min 0 s" nor
"1 h 0 min 0 s": the claim's arithmetic (`10 * 0.5 / 0.5 = 1`) is wrong,
the quotient is 10 hours. -/
theorem C2_counterexample :
    hours_left_calc battery_capacity 50 (1/2) ≠ 1 ∧
    update_time_left battery_capacity 50 (1/2) ≠ "Time Left: 60 min 0 s" ∧
    update_time_left battery_capacity 50 (1/2) ≠ "Time Left: 1 h 0 min 0 s" := by
  refine ⟨by norm_num [hours_left_calc, battery_capacity], ?_, ?_⟩
  · rw [update_time_left_at_half_amp]
    decide
  · rw [update_time_left_at_half_amp]
    decide

/-! ## Helper lemmas: the per-cycle state machine -/

lemma validReading_none : validReading none = false := rfl

lemma validReading_lt {v : ℚ} (h : v < 1/10) : validReading (some v) = false := by
  simp only [validReading]
  rw [decide_eq_true h]
  rfl

lemma validReading_ge {v : ℚ} (h : ¬ v < 1/10) : validReading (some v) = true := by
  simp only [validReading]
  rw [decide_eq_false h]
  rfl

lemma stepCycle_of_invalid (st : MonitorState) (i : CycleInput)
    (h : validReading i.voltage = false) : stepCycle st i = stepInvalid st i := by
  match hv : i.voltage with
  | none => simp only [stepCycle, hv]
  | some v =>
    rw [hv] at h
    simp only [validReading, Bool.not_eq_false', decide_eq_true_eq] at h
    simp only [stepCycle, hv]
    rw [if_pos h]

lemma stepCycle_of_valid (st : MonitorState) (i : CycleInput) (v : ℚ)
    (hv : i.voltage = some v) (h : ¬ v < 1/10) : stepCycle st i = stepValid st i v := by
  simp only [stepCycle, hv]
  rw [if_neg h]

lemma stepInvalid_no_reinit (st : MonitorState) (i : CycleInput)
    (h : st.consecutive_failures + 1 < FAILURE_THRESHOLD) :
    stepInvalid st i =
      (⟨false, st.consecutive_failures + 1, 0, st.last_voltage, 0⟩,
       ⟨false, mkPublishStr "Battery Disconnected" "N/A" "N/A"⟩) := by
  simp only [stepInvalid]
  rw [if_neg (fun hc => absurd hc.1 (not_le.mpr h))]

lemma stepInvalid_reinit (st : MonitorState) (i : CycleInput)
    (h : FAILURE_THRESHOLD ≤ st.consecutive_failures + 1) (hp : i.present = true) :
    stepInvalid st i =
      (⟨false, 0, 0, st.last_voltage, 0⟩,
       ⟨true, mkPublishStr "Battery Disconnected" "N/A" "N/A"⟩) := by
  simp only [stepInvalid]
  rw [if_pos ⟨h, hp⟩]

lemma stepInvalid_connected (st : MonitorState) (i : CycleInput) :
    (stepInvalid st i).1.sensor_connected = false := by
  simp only [stepInvalid]
  split <;> rfl

lemma stepValid_connected (st : MonitorState) (i : CycleInput) (v : ℚ) :
    (stepValid st i v).1.sensor_connected =
      reconnectUpdate st.sensor_connected (st.valid_read_count + 1) := by
  simp only [stepValid]
  split <;> rfl

lemma stepValid_vrc (st : MonitorState) (i : CycleInput) (v : ℚ) :
    (stepValid st i v).1.valid_read_count = st.valid_read_count + 1 := by
  simp only [stepValid]
  split <;> rfl

lemma stepValid_publish (st : MonitorState) (i : CycleInput) (v : ℚ) :
    (stepValid st i v).2.publish =
      mkPublishStr (fmtFixed v 3 ++ " V") (fmtCurrent i.current)
        (fmtFixed (estimate_soc (some v)) 1 ++ "%") := by
  simp only [stepValid]
  split <;> rfl

lemma stepInvalid_publish (st : MonitorState) (i : CycleInput) :
    (stepInvalid st i).2.publish = mkPublishStr "Battery Disconnected" "N/A" "N/A" := by
  simp only [stepInvalid]
  split <;> rfl

lemma reconnectUpdate_false (n : Nat) :
    reconnectUpdate false n = true ↔ VALID_READ_COUNT_FOR_RECONNECT ≤ n := by
  simp only [reconnectUpdate]
  split_ifs with h
  · simp [h.2]
  · simp only [Bool.false_eq_true, false_iff]
    intro hn
    exact h ⟨by trivial, hn⟩

/-- **C3.** Starting from `consecutive_failures = 0`, three consecutive
invalid readings with the presence probe answering true cause exactly one
reinitialization (reset + configure), on the third cycle, and leave
`consecutive_failures = 0`. -/
theorem C3_failure_reinit (st : MonitorState) (i1 i2 i3 : CycleInput)
    (h0 : st.consecutive_failures = 0)
    (hv1 : validReading i1.voltage = false) (hp1 : i1.present = true)
    (hv2 : validReading i2.voltage = false) (hp2 : i2.present = true)
    (hv3 : validReading i3.voltage = false) (hp3 : i3.present = true) :
    (runMonitor st [i1, i2, i3]).2.map CycleOutput.reinit = [false, false, true] ∧
    (runMonitor st [i1, i2, i3]).1.consecutive_failures = 0 := by
  have e1 : stepCycle st i1 =
      (⟨false, st.consecutive_failures + 1, 0, st.last_voltage, 0⟩,
       ⟨false, mkPublishStr "Battery Disconnected" "N/A" "N/A"⟩) := by
    rw [stepCycle_of_invalid st i1 hv1,
      stepInvalid_no_reinit st i1 (by rw [h0]; decide)]
  have e2 : stepCycle (⟨false, st.consecutive_failures + 1, 0, st.last_voltage, 0⟩ :
      MonitorState) i2 =
      (⟨false, st.consecutive_failures + 1 + 1, 0, st.last_voltage, 0⟩,
       ⟨false, mkPublishStr "Battery Disconnected" "N/A" "N/A"⟩) := by
    rw [stepCycle_of_invalid _ i2 hv2,
      stepInvalid_no_reinit _ i2
        (by show st.consecutive_failures + 1 + 1 < FAILURE_THRESHOLD; rw [h0]; decide)]
  have e3 : stepCycle (⟨false, st.consecutive_failures + 1 + 1, 0, st.last_voltage, 0⟩ :
      MonitorState) i3 =
      (⟨false, 0, 0, st.last_voltage, 0⟩,
       ⟨true, mkPublishStr "Battery Disconnected" "N/A" "N/A"⟩) := by
    rw [stepCycle_of_invalid _ i3 hv3,
      stepInvalid_reinit _ i3
        (by show FAILURE_THRESHOLD ≤ st.consecutive_failures + 1 + 1 + 1; rw [h0]; decide) hp3]
  simp only [runMonitor, e1, e2, e3]
  refine ⟨?_, ?_⟩ <;> first | rfl | trivial

/-- Witness for C3: the `[None, None, None]` sequence on a fresh
`Disconnected` monitor. -/
theorem C3_witness :
    initialMonitorState.consecutive_failures = 0 ∧
    validReading none = false ∧
    (runMonitor initialMonitorState
        [⟨none, none, true, none, none⟩, ⟨none, none, true, none, none⟩,
         ⟨none, none, true, none, none⟩]).2.map CycleOutput.reinit = [false, false, true] ∧
    (runMonitor initialMonitorState
        [⟨none, none, true, none, none⟩, ⟨none, none, true, none, none⟩,
         ⟨none, none, true, none, none⟩]).1.consecutive_failures = 0 :=
  ⟨rfl, rfl,
    C3_failure_reinit initialMonitorState _ _ _ rfl rfl rfl rfl rfl rfl rfl⟩

/-- **C5.** From a `Disconnected` state, the state flips to `Connected`
only on a cycle whose reading is valid and whose accumulated
`valid_read_count` reaches `VALID_READ_COUNT_FOR_RECONNECT (2)`; in
particular a single valid reading right after a disconnection
(`valid_read_count = 0`) never flips the state. -/
theorem C5_reconnect_confirmation (st : MonitorState) (i : CycleInput)
    (hdis : st.sensor_connected = false) :
    ((stepCycle st i).1.sensor_connected = true →
      validReading i.voltage = true ∧
      VALID_READ_COUNT_FOR_RECONNECT ≤ (stepCycle st i).1.valid_read_count) ∧
    (st.valid_read_count = 0 → (stepCycle st i).1.sensor_connected = false) := by
  match hv : i.voltage with
  | none =>
    have e := stepCycle_of_invalid st i (by rw [hv]; exact validReading_none)
    rw [e]
    exact ⟨fun h => absurd h (by simp [stepInvalid_connected]),
      fun _ => stepInvalid_connected st i⟩
  | some v =>
    rcases lt_or_le v (1/10) with hlt | hge
    · have e := stepCycle_of_invalid st i (by rw [hv]; exact validReading_lt hlt)
      rw [e]
      exact ⟨fun h => absurd h (by simp [stepInvalid_connected]),
        fun _ => stepInvalid_connected st i⟩
    · have e := stepCycle_of_valid st i v hv (not_lt.mpr hge)
      rw [e]
      constructor
      · intro h
        rw [stepValid_connected, hdis] at h
        refine ⟨validReading_ge (not_lt.mpr hge), ?_⟩
        rw [stepValid_vrc]
        exact (reconnectUpdate_false _).mp h
      · intro h0
        rw [stepValid_connected, hdis, h0]
        decide

/-- Witness for C5: one valid 15 V reading on the fresh disconnected
monitor leaves it disconnected. -/
theorem C5_witness :
    initialMonitorState.sensor_connected = false ∧
    initialMonitorState.valid_read_count = 0 ∧
    (stepCycle initialMonitorState ⟨some 15, some 1, true, none, none⟩).1.sensor_connected
      = false :=
  ⟨rfl, rfl,
    (C5_reconnect_confirmation initialMonitorState
      ⟨some 15, some 1, true, none, none⟩ rfl).2 rfl⟩

/-! ## Helper lemmas: the stability / stale-lock branch -/

lemma stepValid_stable_incr (st : MonitorState) (i : CycleInput) (v lv : ℚ)
    (hlv : st.last_voltage = some lv) (htol : |v - lv| < TOLERANCE)
    (hlt : st.stable_count + 1 < STABLE_THRESHOLD) :
    stepValid st i v =
      (⟨reconnectUpdate st.sensor_connected (st.valid_read_count + 1), 0,
        st.valid_read_count + 1, some v, st.stable_count + 1⟩,
       ⟨false, mkPublishStr (fmtFixed v 3 ++ " V") (fmtCurrent i.current)
          (fmtFixed (estimate_soc (some v)) 1 ++ "%")⟩) := by
  simp only [stepValid, hlv]
  rw [if_pos htol, if_neg (not_le.mpr hlt)]

lemma stepValid_stale_reinit (st : MonitorState) (i : CycleInput) (v lv : ℚ)
    (hlv : st.last_voltage = some lv) (htol : |v - lv| < TOLERANCE)
    (hge : STABLE_THRESHOLD ≤ st.stable_count + 1) :
    stepValid st i v =
      (⟨reconnectUpdate st.sensor_connected (st.valid_read_count + 1), 0,
        st.valid_read_count + 1, i.revoltage, 0⟩,
       ⟨true, mkPublishStr (fmtFixed v 3 ++ " V") (fmtCurrent i.current)
          (fmtFixed (estimate_soc (some v)) 1 ++ "%")⟩) := by
  simp only [stepValid, hlv]
  rw [if_pos htol, if_pos hge]

/-- The stability condition the valid branch checks on line 178: the new
reading is within `TOLERANCE` of the retained `last_voltage`, vacuous when
no voltage is retained. -/
def withinTol (prev : Option ℚ) (v : ℚ) : Prop :=
  match prev with
  | some w => |v - w| < TOLERANCE
  | none => True

instance withinTolDecidable (prev : Option ℚ) (v : ℚ) : Decidable (withinTol prev v) :=
  match prev with
  | some w => inferInstanceAs (Decidable (|v - w| < TOLERANCE))
  | none => Decidable.isTrue trivial

/-- **C4.** From any state that retains a last voltage, three consecutive
valid readings each within `TOLERANCE (0.001)` of the then-current
retained voltage force a reinitialization during that window — on
whichever cycle `stable_count` reaches `STABLE_THRESHOLD (3)`, however
large it already was — and `stable_count` is 0 at the end of the
reinitializing cycle. -/
theorem C4_stale_lock_reinit (st : MonitorState) (i1 i2 i3 : CycleInput)
    (v1 v2 v3 lv : ℚ)
    (hlv : st.last_voltage = some lv)
    (h1v : i1.voltage = some v1) (h1r : ¬ v1 < 1/10) (h1t : |v1 - lv| < TOLERANCE)
    (h2v : i2.voltage = some v2) (h2r : ¬ v2 < 1/10)
    (h2t : withinTol (stepCycle st i1).1.last_voltage v2)
    (h3v : i3.voltage = some v3) (h3r : ¬ v3 < 1/10)
    (h3t : withinTol (stepCycle (stepCycle st i1).1 i2).1.last_voltage v3) :
    ((stepCycle st i1).2.reinit = true ∧ (stepCycle st i1).1.stable_count = 0) ∨
    ((stepCycle (stepCycle st i1).1 i2).2.reinit = true ∧
      (stepCycle (stepCycle st i1).1 i2).1.stable_count = 0) ∨
    ((stepCycle (stepCycle (stepCycle st i1).1 i2).1 i3).2.reinit = true ∧
      (stepCycle (stepCycle (stepCycle st i1).1 i2).1 i3).1.stable_count = 0) := by
  have e1 := stepCycle_of_valid st i1 v1 h1v h1r
  rcases le_or_lt STABLE_THRESHOLD (st.stable_count + 1) with hge1 | hlt1
  · refine Or.inl ?_
    rw [e1, stepValid_stale_reinit st i1 v1 lv hlv h1t hge1]
    exact ⟨rfl, rfl⟩
  · have s1 : stepCycle st i1 =
        (⟨reconnectUpdate st.sensor_connected (st.valid_read_count + 1), 0,
          st.valid_read_count + 1, some v1, st.stable_count + 1⟩,
         ⟨false, mkPublishStr (fmtFixed v1 3 ++ " V") (fmtCurrent i1.current)
            (fmtFixed (estimate_soc (some v1)) 1 ++ "%")⟩) := by
      rw [e1, stepValid_stable_incr st i1 v1 lv hlv h1t hlt1]
    rw [s1] at h2t h3t ⊢
    simp only [withinTol] at h2t
    have e2 := stepCycle_of_valid
      (⟨reconnectUpdate st.sensor_connected (st.valid_read_count + 1), 0,
        st.valid_read_count + 1, some v1, st.stable_count + 1⟩ : MonitorState) i2 v2 h2v h2r
    rcases le_or_lt STABLE_THRESHOLD (st.stable_count + 1 + 1) with hge2 | hlt2
    · refine Or.inr (Or.inl ?_)
      rw [e2, stepValid_stale_reinit _ i2 v2 v1 rfl h2t hge2]
      exact ⟨rfl, rfl⟩
    · have s2 : stepCycle
          (⟨reconnectUpdate st.sensor_connected (st.valid_read_count + 1), 0,
            st.valid_read_count + 1, some v1, st.stable_count + 1⟩ : MonitorState) i2 =
          (⟨reconnectUpdate (reconnectUpdate st.sensor_connected (st.valid_read_count + 1))
              (st.valid_read_count + 1 + 1), 0,
            st.valid_read_count + 1 + 1, some v2, st.stable_count + 1 + 1⟩,
           ⟨false, mkPublishStr (fmtFixed v2 3 ++ " V") (fmtCurrent i2.current)
              (fmtFixed (estimate_soc (some v2)) 1 ++ "%")⟩) := by
        rw [e2, stepValid_stable_incr _ i2 v2 v1 rfl h2t hlt2]
      rw [s2] at h3t ⊢
      simp only [withinTol] at h3t
      refine Or.inr (Or.inr ?_)
      have e3 := stepCycle_of_valid
        (⟨reconnectUpdate (reconnectUpdate st.sensor_connected (st.valid_read_count + 1))
            (st.valid_read_count + 1 + 1), 0,
          st.valid_read_count + 1 + 1, some v2, st.stable_count + 1 + 1⟩ : MonitorState)
        i3 v3 h3v h3r
      rw [e3, stepValid_stale_reinit _ i3 v3 v2 rfl h3t
        (by show STABLE_THRESHOLD ≤ st.stable_count + 1 + 1 + 1
            simp only [STABLE_THRESHOLD]
            omega)]
      exact ⟨rfl, rfl⟩

/-! ## Helper lemmas: concrete formatting evaluations -/

lemma roundHalfEven_15825 : roundHalfEven ((15.825 : ℚ) * 10 ^ 3) = 15825 := by
  norm_num [roundHalfEven]

lemma fmtFixed_15825 : fmtFixed 15.825 3 = "15.825" := by
  simp only [fmtFixed]
  rw [roundHalfEven_15825]
  norm_num
  decide

lemma fmtFixed_one6 : fmtFixed 1 6 = "1.000000" := by
  have h : roundHalfEven ((1 : ℚ) * 10 ^ 6) = 1000000 := by norm_num [roundHalfEven]
  simp only [fmtFixed]
  rw [h]
  norm_num
  decide

lemma fmtFixed_fifty : fmtFixed 50 1 = "50.0" := by
  have h : roundHalfEven ((50 : ℚ) * 10 ^ 1) = 500 := by norm_num [roundHalfEven]
  simp only [fmtFixed]
  rw [h]
  norm_num
  decide

lemma fmtFixed_sixteen : fmtFixed 16 3 = "16.000" := by
  have h : roundHalfEven ((16 : ℚ) * 10 ^ 3) = 16000 := by norm_num [roundHalfEven]
  simp only [fmtFixed]
  rw [h]
  norm_num
  decide

lemma fmtFixed_soc16 : fmtFixed (2400/41) 1 = "58.5" := by
  have hfl : ⌊(2400/41 : ℚ) * 10 ^ 1⌋ = 585 := by norm_num
  have h : roundHalfEven ((2400/41 : ℚ) * 10 ^ 1) = 585 := by
    rw [roundHalfEven]
    norm_num
  simp only [fmtFixed]
  rw [h]
  norm_num
  decide

lemma soc_at_16 : estimate_soc (some 16) = 2400/41 := by norm_num [estimate_soc]

lemma soc_at_15825 : estimate_soc (some (15.825 : ℚ)) = 50 := by norm_num [estimate_soc]

/-- **C1 (amended).** On a stale-lock cycle the published wire message is
formatted from the reading taken at the start of the cycle (and the SoC
derived from it) — lines 174-176 run before the re-sample of lines
188-189 — while `last_voltage` receives the re-sampled voltage. -/
theorem C1_publish_reflects_presample (st : MonitorState) (i : CycleInput) (v lv : ℚ)
    (hv : i.voltage = some v) (hr : ¬ v < 1/10)
    (hlv : st.last_voltage = some lv) (htol : |v - lv| < TOLERANCE)
    (hsc : STABLE_THRESHOLD ≤ st.stable_count + 1) :
    (stepCycle st i).2.reinit = true ∧
    (stepCycle st i).2.publish =
      mkPublishStr (fmtFixed v 3 ++ " V") (fmtCurrent i.current)
        (fmtFixed (estimate_soc (some v)) 1 ++ "%") ∧
    (stepCycle st i).1.last_voltage = i.revoltage := by
  rw [stepCycle_of_valid st i v hv hr, stepValid_stale_reinit st i v lv hlv htol hsc]
  exact ⟨rfl, rfl, rfl⟩

/-- Witness for the amended C1 at a concrete stale-lock cycle. -/
theorem C1_witness :
    (¬ (15 : ℚ) < 1/10) ∧ |(15 : ℚ) - 15| < TOLERANCE ∧
    STABLE_THRESHOLD ≤ 2 + 1 ∧
    ((stepCycle ⟨true, 0, 5, some 15, 2⟩ ⟨some 15, some 1, true, some 16, some 1⟩).2.reinit
        = true ∧
      (stepCycle ⟨true, 0, 5, some 15, 2⟩ ⟨some 15, some 1, true, some 16, some 1⟩).2.publish
        = mkPublishStr (fmtFixed 15 3 ++ " V") (fmtCurrent (some 1))
            (fmtFixed (estimate_soc (some 15)) 1 ++ "%") ∧
      (stepCycle ⟨true, 0, 5, some 15, 2⟩ ⟨some 15, some 1, true, some 16, some 1⟩).1.last_voltage
        = some 16) :=
  ⟨by norm_num, by norm_num [TOLERANCE], by decide,
    C1_publish_reflects_presample ⟨true, 0, 5, some 15, 2⟩
      ⟨some 15, some 1, true, some 16, some 1⟩ 15 15 rfl (by norm_num) rfl
      (by norm_num [TOLERANCE]) (by decide)⟩

/-- **C1 counterexample.** A stale-lock cycle that re-samples 16 V after
reading 15.825 V publishes the message for 15.825 V / SoC 50.0 %, not the
message reflecting the final re-sampled reading (16.000 V / SoC 58.5 %). -/
theorem C1_counterexample :
    (stepCycle ⟨true, 0, 5, some 15.825, 2⟩
        ⟨some 15.825, some 1, true, some 16, some 1⟩).2.reinit = true ∧
    (stepCycle ⟨true, 0, 5, some 15.825, 2⟩
        ⟨some 15.825, some 1, true, some 16, some 1⟩).1.last_voltage = some 16 ∧
    (stepCycle ⟨true, 0, 5, some 15.825, 2⟩
        ⟨some 15.825, some 1, true, some 16, some 1⟩).2.publish
      = "Voltage: 15.825 V, Current: 1.000000 A, SoC: 50.0%" ∧
    (stepCycle ⟨true, 0, 5, some 15.825, 2⟩
        ⟨some 15.825, some 1, true, some 16, some 1⟩).2.publish
      ≠ mkPublishStr (fmtFixed (16 : ℚ) 3 ++ " V") (fmtCurrent (some 1))
          (fmtFixed (estimate_soc (some 16)) 1 ++ "%") := by
  have s : stepCycle (⟨true, 0, 5, some 15.825, 2⟩ : MonitorState)
      (⟨some 15.825, some 1, true, some 16, some 1⟩ : CycleInput) =
      (⟨reconnectUpdate true 6, 0, 6, some 16, 0⟩,
       ⟨true, mkPublishStr (fmtFixed 15.825 3 ++ " V") (fmtCurrent (some 1))
          (fmtFixed (estimate_soc (some 15.825)) 1 ++ "%")⟩) := by
    rw [stepCycle_of_valid _ _ 15.825 rfl (by norm_num),
      stepValid_stale_reinit _ _ 15.825 15.825 rfl (by norm_num [TOLERANCE]) (by decide)]
  rw [s]
  refine ⟨rfl, rfl, ?_, ?_⟩
  · show mkPublishStr (fmtFixed 15.825 3 ++ " V") (fmtCurrent (some 1))
      (fmtFixed (estimate_soc (some 15.825)) 1 ++ "%")
      = "Voltage: 15.825 V, Current: 1.000000 A, SoC: 50.0%"
    rw [soc_at_15825, fmtFixed_15825, fmtFixed_fifty]
    show mkPublishStr "15.825 V" (fmtFixed 1 6 ++ " A") "50.0%"
      = "Voltage: 15.825 V, Current: 1.000000 A, SoC: 50.0%"
    rw [fmtFixed_one6]
    decide
  · show mkPublishStr (fmtFixed 15.825 3 ++ " V") (fmtCurrent (some 1))
      (fmtFixed (estimate_soc (some 15.825)) 1 ++ "%")
      ≠ mkPublishStr (fmtFixed (16 : ℚ) 3 ++ " V") (fmtCurrent (some 1))
          (fmtFixed (estimate_soc (some 16)) 1 ++ "%")
    rw [soc_at_15825, soc_at_16, fmtFixed_15825, fmtFixed_fifty, fmtFixed_sixteen,
      fmtFixed_soc16]
    show mkPublishStr "15.825 V" (fmtFixed 1 6 ++ " A") "50.0%"
      ≠ mkPublishStr "16.000 V" (fmtFixed 1 6 ++ " A") "58.5%"
    rw [fmtFixed_one6]
    decide

/-- Witness for C4: a constant 15 V reading from a fresh stable window. -/
theorem C4_witness :
    (¬ (15 : ℚ) < 1/10) ∧ |(15 : ℚ) - 15| < TOLERANCE ∧
    withinTol (stepCycle ⟨false, 0, 0, some 15, 0⟩
      ⟨some 15, some 1, true, some 15, some 1⟩).1.last_voltage 15 ∧
    (((stepCycle ⟨false, 0, 0, some 15, 0⟩
          ⟨some 15, some 1, true, some 15, some 1⟩).2.reinit = true ∧
       (stepCycle ⟨false, 0, 0, some 15, 0⟩
          ⟨some 15, some 1, true, some 15, some 1⟩).1.stable_count = 0) ∨
     ((stepCycle (stepCycle ⟨false, 0, 0, some 15, 0⟩
            ⟨some 15, some 1, true, some 15, some 1⟩).1
          ⟨some 15, some 1, true, some 15, some 1⟩).2.reinit = true ∧
       (stepCycle (stepCycle ⟨false, 0, 0, some 15, 0⟩
            ⟨some 15, some 1, true, some 15, some 1⟩).1
          ⟨some 15, some 1, true, some 15, some 1⟩).1.stable_count = 0) ∨
     ((stepCycle (stepCycle (stepCycle ⟨false, 0, 0, some 15, 0⟩
              ⟨some 15, some 1, true, some 15, some 1⟩).1
            ⟨some 15, some 1, true, some 15, some 1⟩).1
          ⟨some 15, some 1, true, some 15, some 1⟩).2.reinit = true ∧
       (stepCycle (stepCycle (stepCycle ⟨false, 0, 0, some 15, 0⟩
              ⟨some 15, some 1, true, some 15, some 1⟩).1
            ⟨some 15, some 1, true, some 15, some 1⟩).1
          ⟨some 15, some 1, true, some 15, some 1⟩).1.stable_count = 0)) := by
  have hr : ¬ (15 : ℚ) < 1/10 := by norm_num
  have ht : |(15 : ℚ) - 15| < TOLERANCE := by norm_num [TOLERANCE]
  have s1 : stepCycle (⟨false, 0, 0, some 15, 0⟩ : MonitorState)
      (⟨some 15, some 1, true, some 15, some 1⟩ : CycleInput) =
      (⟨reconnectUpdate false 1, 0, 1, some 15, 1⟩,
       ⟨false, mkPublishStr (fmtFixed 15 3 ++ " V") (fmtCurrent (some 1))
          (fmtFixed (estimate_soc (some 15)) 1 ++ "%")⟩) := by
    rw [stepCycle_of_valid _ _ 15 rfl hr,
      stepValid_stable_incr _ _ 15 15 rfl ht (by decide)]
  have s2 : stepCycle (⟨reconnectUpdate false 1, 0, 1, some 15, 1⟩ : MonitorState)
      (⟨some 15, some 1, true, some 15, some 1⟩ : CycleInput) =
      (⟨reconnectUpdate (reconnectUpdate false 1) 2, 0, 2, some 15, 2⟩,
       ⟨false, mkPublishStr (fmtFixed 15 3 ++ " V") (fmtCurrent (some 1))
          (fmtFixed (estimate_soc (some 15)) 1 ++ "%")⟩) := by
    rw [stepCycle_of_valid _ _ 15 rfl hr,
      stepValid_stable_incr _ _ 15 15 rfl ht (by decide)]
  have h2t : withinTol (stepCycle (⟨false, 0, 0, some 15, 0⟩ : MonitorState)
      (⟨some 15, some 1, true, some 15, some 1⟩ : CycleInput)).1.last_voltage 15 := by
    rw [s1]
    show withinTol (some 15) 15
    simp only [withinTol]
    norm_num [TOLERANCE]
  have h3t : withinTol (stepCycle (stepCycle (⟨false, 0, 0, some 15, 0⟩ : MonitorState)
      (⟨some 15, some 1, true, some 15, some 1⟩ : CycleInput)).1
      (⟨some 15, some 1, true, some 15, some 1⟩ : CycleInput)).1.last_voltage 15 := by
    rw [s1]
    show withinTol (stepCycle (⟨reconnectUpdate false 1, 0, 1, some 15, 1⟩ : MonitorState)
      (⟨some 15, some 1, true, some 15, some 1⟩ : CycleInput)).1.last_voltage 15
    rw [s2]
    show withinTol (some 15) 15
    simp only [withinTol]
    norm_num [TOLERANCE]
  exact ⟨hr, ht, h2t,
    C4_stale_lock_reinit ⟨false, 0, 0, some 15, 0⟩ _ _ _ 15 15 15 15 rfl rfl hr ht
      rfl hr h2t rfl hr h3t⟩

/-! ## Helper lemmas: wire-message shape -/

lemma data_append (s t : String) : (s ++ t).data = s.data ++ t.data := by
  cases s
  cases t
  rfl

lemma mkPublishStr_percent_last (a b x : String) :
    (mkPublishStr a b (x ++ "%")).data.getLast? = some '%' := by
  simp only [mkPublishStr, data_append]
  rw [← List.append_assoc]
  exact List.getLast?_concat _

lemma valid_publish_ne (a b x : String) : mkPublishStr a b (x ++ "%") ≠ disconnectedMsg := by
  intro h
  have h1 : (mkPublishStr a b (x ++ "%")).data.getLast? = disconnectedMsg.data.getLast? := by
    rw [h]
  rw [mkPublishStr_percent_last] at h1
  rw [show disconnectedMsg.data.getLast? = some 'A' from by decide] at h1
  exact absurd h1 (by decide)

/-- **C10.** The wire-message form depends only on the validity of the
cycle's reading, never on `sensor_connected`: the \"Battery
Disconnected\" message is published exactly on invalid-reading cycles,
and every valid-reading cycle publishes the numeric format built from the
cycle's reading — the state `st` is universally quantified, so this holds
also during the reconnect-confirmation window. -/
theorem C10_publish_form (st : MonitorState) (i : CycleInput) :
    ((stepCycle st i).2.publish = disconnectedMsg ↔ validReading i.voltage = false) ∧
    (∀ v : ℚ, i.voltage = some v → ¬ v < 1/10 →
      (stepCycle st i).2.publish =
        mkPublishStr (fmtFixed v 3 ++ " V") (fmtCurrent i.current)
          (fmtFixed (estimate_soc (some v)) 1 ++ "%")) := by
  constructor
  · match hv : i.voltage with
    | none =>
      rw [stepCycle_of_invalid st i (by rw [hv]; exact validReading_none),
        stepInvalid_publish]
      exact iff_of_true (by decide) validReading_none
    | some v =>
      rcases lt_or_le v (1/10) with hlt | hge
      · rw [stepCycle_of_invalid st i (by rw [hv]; exact validReading_lt hlt),
          stepInvalid_publish]
        exact iff_of_true (by decide) (validReading_lt hlt)
      · rw [stepCycle_of_valid st i v hv (not_lt.mpr hge), stepValid_publish]
        refine iff_of_false (valid_publish_ne _ _ _) ?_
        rw [validReading_ge (not_lt.mpr hge)]
        simp
  · intro v hv hr
    rw [stepCycle_of_valid st i v hv hr, stepValid_publish]

/-- Witness for C10: a valid 15 V reading on the fresh (still
disconnected) monitor publishes the numeric format. -/
theorem C10_witness :
    (¬ (15 : ℚ) < 1/10) ∧
    (stepCycle initialMonitorState ⟨some 15, none, true, none, none⟩).2.publish =
      mkPublishStr (fmtFixed 15 3 ++ " V") (fmtCurrent none)
        (fmtFixed (estimate_soc (some 15)) 1 ++ "%") :=
  ⟨by norm_num,
    (C10_publish_form initialMonitorState ⟨some 15, none, true, none, none⟩).2 15 rfl
      (by norm_num)⟩

lemma handle_filtered_soc (st : ConsumerState) (t : ℚ) (msg : String)
    (g1 g2 g3 : String) (v c s : ℚ)
    (hm : searchVoltagePattern msg.data = some (g1, g2, g3))
    (h1 : parseNumStr g1 = some v) (h2 : parseNumStr g2 = some c)
    (h3 : parseNumStr g3 = some s) :
    (handle_new_message st t msg).filtered_soc = some (smoothNext st.filtered_soc s) := by
  simp only [handle_new_message, hm, h1, h2, h3]
  split <;> rfl

lemma handle_no_trunc (st : ConsumerState) (t : ℚ) (msg : String)
    (g1 g2 g3 : String) (v c s : ℚ)
    (hm : searchVoltagePattern msg.data = some (g1, g2, g3))
    (h1 : parseNumStr g1 = some v) (h2 : parseNumStr g2 = some c)
    (h3 : parseNumStr g3 = some s)
    (hc : ¬ max_points < (st.time_data ++ [t]).length) :
    handle_new_message st t msg =
      ⟨st.time_data ++ [t], st.voltage_data ++ [v], st.current_data ++ [c],
       st.soc_data ++ [smoothNext st.filtered_soc s],
       some (smoothNext st.filtered_soc s),
       update_time_left battery_capacity (smoothNext st.filtered_soc s) c⟩ := by
  simp only [handle_new_message, hm, h1, h2, h3]
  rw [if_neg hc]

lemma handle_trunc (st : ConsumerState) (t : ℚ) (msg : String)
    (g1 g2 g3 : String) (v c s : ℚ)
    (hm : searchVoltagePattern msg.data = some (g1, g2, g3))
    (h1 : parseNumStr g1 = some v) (h2 : parseNumStr g2 = some c)
    (h3 : parseNumStr g3 = some s)
    (hc : max_points < (st.time_data ++ [t]).length) :
    handle_new_message st t msg =
      ⟨lastN max_points (st.time_data ++ [t]), lastN max_points (st.voltage_data ++ [v]),
       lastN max_points (st.current_data ++ [c]),
       lastN max_points (st.soc_data ++ [smoothNext st.filtered_soc s]),
       some (smoothNext st.filtered_soc s),
       update_time_left battery_capacity (smoothNext st.filtered_soc s) c⟩ := by
  simp only [handle_new_message, hm, h1, h2, h3]
  rw [if_pos hc]

lemma lastN_concat {α : Type} (l : List α) (x : α) (h : l.length = max_points) :
    lastN max_points (l ++ [x]) = l.drop 1 ++ [x] := by
  have hlen : (l ++ [x]).length - max_points = 1 := by
    rw [List.length_append, h]
    simp only [List.length_singleton]
    omega
  unfold lastN
  rw [hlen]
  cases l with
  | nil => simp [max_points] at h
  | cons a tl => rfl

/-- **C7.** The consumer seeds `filtered_soc` directly from the first
parsed SoC sample and thereafter smooths with
`alpha * soc + (1 - alpha) * prev`, `alpha = 0.2`; iterating the same
update on a constant input `x` from seed `f0` gives
`|f_n - x| = (1 - alpha)^n * |f0 - x|`. -/
theorem C7_smoothing :
    (∀ (st : ConsumerState) (t : ℚ) (msg : String) (g1 g2 g3 : String) (v c s : ℚ),
      searchVoltagePattern msg.data = some (g1, g2, g3) →
      parseNumStr g1 = some v → parseNumStr g2 = some c → parseNumStr g3 = some s →
      (st.filtered_soc = none → (handle_new_message st t msg).filtered_soc = some s) ∧
      (∀ f : ℚ, st.filtered_soc = some f →
        (handle_new_message st t msg).filtered_soc =
          some (alpha * s + (1 - alpha) * f))) ∧
    (∀ x f0 : ℚ, ∀ n : Nat, |ewmaIter x f0 n - x| = (1 - alpha) ^ n * |f0 - x|) := by
  constructor
  · intro st t msg g1 g2 g3 v c s hm h1 h2 h3
    have hf := handle_filtered_soc st t msg g1 g2 g3 v c s hm h1 h2 h3
    constructor
    · intro h0
      rw [hf, h0]
      rfl
    · intro f h0
      rw [hf, h0]
      rfl
  · intro x f0 n
    induction n with
    | zero => simp [ewmaIter]
    | succ n ih =>
      have hstep : ewmaIter x f0 (n + 1) - x = (1 - alpha) * (ewmaIter x f0 n - x) := by
        simp only [ewmaIter, smoothNext, ewmaStep]
        ring
      rw [hstep, abs_mul, ih, show |1 - alpha| = 1 - alpha from by norm_num [alpha]]
      ring

/-- Witness for C7: the first parsed sample seeds the filter directly. -/
theorem C7_witness :
    searchVoltagePattern
      (String.data "Voltage: 15.2 V, Current: 0.5 A, SoC: 40.0%")
      = some ("15.2", "0.5", "40.0") ∧
    (handle_new_message ⟨[], [], [], [], none, "Time Left: --:--"⟩ 0
        "Voltage: 15.2 V, Current: 0.5 A, SoC: 40.0%").filtered_soc
      = some (ratOfNumChars (String.data "40.0")) :=
  ⟨by decide,
    (C7_smoothing.1 ⟨[], [], [], [], none, "Time Left: --:--"⟩ 0
      "Voltage: 15.2 V, Current: 0.5 A, SoC: 40.0%" "15.2" "0.5" "40.0"
      (ratOfNumChars (String.data "15.2")) (ratOfNumChars (String.data "0.5"))
      (ratOfNumChars (String.data "40.0"))
      (by decide)
      (by simp only [parseNumStr]; rw [if_pos (by decide)])
      (by simp only [parseNumStr]; rw [if_pos (by decide)])
      (by simp only [parseNumStr]; rw [if_pos (by decide)])).1 rfl⟩

/-- **C8.** Processing a successfully parsed message keeps every history
sequence at ≤ `max_points = 300` entries (given the lengths invariant),
and at exactly 300 entries the new point is appended while exactly the
oldest entry (index 0) is evicted, preserving the order of the rest. -/
theorem C8_rolling_window (st : ConsumerState) (t : ℚ) (msg : String)
    (g1 g2 g3 : String) (v c s : ℚ)
    (hm : searchVoltagePattern msg.data = some (g1, g2, g3))
    (h1 : parseNumStr g1 = some v) (h2 : parseNumStr g2 = some c)
    (h3 : parseNumStr g3 = some s)
    (hlv : st.voltage_data.length = st.time_data.length)
    (hlc : st.current_data.length = st.time_data.length)
    (hls : st.soc_data.length = st.time_data.length)
    (hlen : st.time_data.length ≤ max_points) :
    ((handle_new_message st t msg).time_data.length ≤ max_points ∧
     (handle_new_message st t msg).voltage_data.length ≤ max_points ∧
     (handle_new_message st t msg).current_data.length ≤ max_points ∧
     (handle_new_message st t msg).soc_data.length ≤ max_points) ∧
    (st.time_data.length = max_points →
      (handle_new_message st t msg).time_data = st.time_data.drop 1 ++ [t] ∧
      (handle_new_message st t msg).voltage_data = st.voltage_data.drop 1 ++ [v] ∧
      (handle_new_message st t msg).current_data = st.current_data.drop 1 ++ [c] ∧
      (handle_new_message st t msg).soc_data =
        st.soc_data.drop 1 ++ [smoothNext st.filtered_soc s]) := by
  rcases lt_or_eq_of_le hlen with hlt | heq
  · have hc : ¬ max_points < (st.time_data ++ [t]).length := by
      rw [List.length_append]
      simp only [List.length_singleton]
      omega
    rw [handle_no_trunc st t msg g1 g2 g3 v c s hm h1 h2 h3 hc]
    refine ⟨⟨?_, ?_, ?_, ?_⟩, fun habs => absurd habs (by omega)⟩ <;>
      simp only [List.length_append, List.length_singleton] <;> omega
  · have hc : max_points < (st.time_data ++ [t]).length := by
      rw [List.length_append]
      simp only [List.length_singleton]
      omega
    rw [handle_trunc st t msg g1 g2 g3 v c s hm h1 h2 h3 hc,
      lastN_concat st.time_data t heq,
      lastN_concat st.voltage_data v (hlv.trans heq),
      lastN_concat st.current_data c (hlc.trans heq),
      lastN_concat st.soc_data (smoothNext st.filtered_soc s) (hls.trans heq)]
    have hM : max_points = 300 := rfl
    refine ⟨⟨?_, ?_, ?_, ?_⟩, fun _ => ⟨rfl, rfl, rfl, rfl⟩⟩ <;>
      simp only [List.length_append, List.length_drop, List.length_singleton] <;> omega
  
set_option maxRecDepth 4000 in
/-- Witness for C8: a state holding exactly 300 points evicts index 0. -/
theorem C8_witness :
    searchVoltagePattern
      (String.data "Voltage: 15.2 V, Current: 0.5 A, SoC: 40.0%")
      = some ("15.2", "0.5", "40.0") ∧
    (List.replicate 300 (0 : ℚ)).length = max_points ∧
    ((handle_new_message
        ⟨List.replicate 300 (0 : ℚ), List.replicate 300 (0 : ℚ),
         List.replicate 300 (0 : ℚ), List.replicate 300 (0 : ℚ), some 40,
         "Time Left: --:--"⟩ 5
        "Voltage: 15.2 V, Current: 0.5 A, SoC: 40.0%").time_data
      = (List.replicate 300 (0 : ℚ)).drop 1 ++ [5] ∧
     (handle_new_message
        ⟨List.replicate 300 (0 : ℚ), List.replicate 300 (0 : ℚ),
         List.replicate 300 (0 : ℚ), List.replicate 300 (0 : ℚ), some 40,
         "Time Left: --:--"⟩ 5
        "Voltage: 15.2 V, Current: 0.5 A, SoC: 40.0%").voltage_data
      = (List.replicate 300 (0 : ℚ)).drop 1 ++ [ratOfNumChars (String.data "15.2")] ∧
     (handle_new_message
        ⟨List.replicate 300 (0 : ℚ), List.replicate 300 (0 : ℚ),
         List.replicate 300 (0 : ℚ), List.replicate 300 (0 : ℚ), some 40,
         "Time Left: --:--"⟩ 5
        "Voltage: 15.2 V, Current: 0.5 A, SoC: 40.0%").current_data
      = (List.replicate 300 (0 : ℚ)).drop 1 ++ [ratOfNumChars (String.data "0.5")] ∧
     (handle_new_message
        ⟨List.replicate 300 (0 : ℚ), List.replicate 300 (0 : ℚ),
         List.replicate 300 (0 : ℚ), List.replicate 300 (0 : ℚ), some 40,
         "Time Left: --:--"⟩ 5
        "Voltage: 15.2 V, Current: 0.5 A, SoC: 40.0%").soc_data
      = (List.replicate 300 (0 : ℚ)).drop 1 ++
          [smoothNext (some 40) (ratOfNumChars (String.data "40.0"))]) :=
  ⟨by decide, by decide,
    (C8_rolling_window
      ⟨List.replicate 300 (0 : ℚ), List.replicate 300 (0 : ℚ),
       List.replicate 300 (0 : ℚ), List.replicate 300 (0 : ℚ), some 40,
       "Time Left: --:--"⟩ 5
      "Voltage: 15.2 V, Current: 0.5 A, SoC: 40.0%" "15.2" "0.5" "40.0"
      (ratOfNumChars (String.data "15.2")) (ratOfNumChars (String.data "0.5"))
      (ratOfNumChars (String.data "40.0"))
      (by decide)
      (by simp only [parseNumStr]; rw [if_pos (by decide)])
      (by simp only [parseNumStr]; rw [if_pos (by decide)])
      (by simp only [parseNumStr]; rw [if_pos (by decide)])
      rfl rfl rfl (by decide)).2 (by decide)⟩

/-- **C9.** The disconnected-cycle wire message does not match the
consumer's numeric parser pattern, and any non-matching message leaves
the consumer state completely unchanged (the handler is total: no lists
touched, `filtered_soc` and the time-left text untouched). -/
theorem C9_unparseable_ignored :
    mkPublishStr "Battery Disconnected" "N/A" "N/A" = disconnectedMsg ∧
    searchVoltagePattern disconnectedMsg.data = none ∧
    (∀ (st : ConsumerState) (t : ℚ) (msg : String),
      searchVoltagePattern msg.data = none → handle_new_message st t msg = st) := by
  refine ⟨by decide, by decide, ?_⟩
  intro st t msg h
  simp only [handle_new_message, h]

/-- Witness for C9: the disconnected message itself is dropped without
touching a concrete consumer state. -/
theorem C9_witness :
    searchVoltagePattern
      (String.data "Voltage: Battery Disconnected, Current: N/A, SoC: N/A") = none ∧
    handle_new_message ⟨[], [], [], [], none, "Time Left: --:--"⟩ 0
        "Voltage: Battery Disconnected, Current: N/A, SoC: N/A"
      = ⟨[], [], [], [], none, "Time Left: --:--"⟩ :=
  ⟨by decide,
    C9_unparseable_ignored.2.2 ⟨[], [], [], [], none, "Time Left: --:--"⟩ 0
      "Voltage: Battery Disconnected, Current: N/A, SoC: N/A" (by decide)⟩
